import Mathlib

/-!
Verification development for the EMSN-DIS repository (MO-RISE/emsn-dis).

The repository holds a thin C++ wrapper class `EmsnDis` in two snapshots:
a stub build (src/src/emsndis.h together with src/unnamed/part_001) whose
three methods only print a fixed line to standard output, and a pybind11
build (src/unnamed/part_002, part_003, part_004) whose methods forward to
the `emsndis` Python module of the same repository.  That Python module
(the DIS session, codec and transport proper) is not present under src/,
so the session state machine, the PDU codec and the error taxonomy are
modelled below from the design spec (sections 3, 4 and 7), clearly marked
`Modelled from the spec:` — everything else is translated from the C++
sources.
-/

/-! ## The stub build, from src/src/emsndis.h and src/unnamed/part_001 -/

/-- From src/src/emsndis.h: the stub class holds the three identity
integers as public fields and exposes the three send methods; the stub
`send_state_pdu` takes no entity-state parameters at all. -/
structure EmsnDis where
  siteId : Int
  applicationId : Int
  exerciseId : Int
deriving DecidableEq

/-- From src/unnamed/part_001 lines 6-11: the constructor only copies the
three arguments into the fields; it produces no output. -/
def EmsnDis.construct (i_siteId i_applicationId i_exerciseId : Int) : EmsnDis :=
  { siteId := i_siteId, applicationId := i_applicationId, exerciseId := i_exerciseId }

/-- From src/unnamed/part_001 lines 12-15: prints the fixed line and
returns void (no failure path exists in the source). -/
def EmsnDis.send_start_pdu (_ : EmsnDis) : String := "Start Pdu\n"

/-- From src/unnamed/part_001 lines 16-19. -/
def EmsnDis.send_state_pdu (_ : EmsnDis) : String := "State Pdu\n"

/-- From src/unnamed/part_001 lines 20-23. -/
def EmsnDis.send_stop_pdu (_ : EmsnDis) : String := "Stop Pdu\n"

/-- A call a caller can make on the stub object.  `state` carries no
arguments because the stub `send_state_pdu` declares none. -/
inductive StubCall
  | start
  | state
  | stop
deriving DecidableEq

/-- Dispatch one stub call and collect the line it writes to stdout. -/
def stubStep (d : EmsnDis) (c : StubCall) : String :=
  match c with
  | .start => d.send_start_pdu
  | .state => d.send_state_pdu
  | .stop => d.send_stop_pdu

/-- The stdout trace of a sequence of calls on one stub instance. -/
def stubRun (d : EmsnDis) (cs : List StubCall) : List String :=
  cs.map (stubStep d)

/-- The fixed line each stub call prints. -/
def stubLine (c : StubCall) : String :=
  match c with
  | .start => "Start Pdu\n"
  | .state => "State Pdu\n"
  | .stop => "Stop Pdu\n"

/-! ## The pybind11 build's constructor, from part_002 / part_003 -/

/-- Whether the process-wide Python interpreter is running.  pybind11's
`scoped_interpreter` (a member of `EmsnDis` in src/unnamed/part_003 line
13) refuses to start when an interpreter is already running. -/
structure PyInterpreterState where
  running : Bool
deriving DecidableEq

/-- The pybind11 build of the class after successful construction. -/
structure EmsnDisPy where
  siteId : Int
  applicationId : Int
  exerciseId : Int
deriving DecidableEq

/-- Constructing a second `scoped_interpreter` while one is alive throws. -/
inductive PyConstructError
  | interpreterAlreadyRunning
deriving DecidableEq

/-- From src/unnamed/part_002 lines 7-27 and the `py::scoped_interpreter
guard{}` member of src/unnamed/part_003 line 13, with pybind11's documented
semantics for `scoped_interpreter`: if the interpreter is already running
the guard's construction throws, so the `EmsnDis` constructor fails;
otherwise the guard starts the interpreter, which stays alive for the
instance's lifetime. -/
def constructEmsnDisPy (proc : PyInterpreterState)
    (siteId applicationId exerciseId : Int) :
    Except PyConstructError (PyInterpreterState × EmsnDisPy) :=
  if proc.running then
    Except.error PyConstructError.interpreterAlreadyRunning
  else
    Except.ok (⟨true⟩, ⟨siteId, applicationId, exerciseId⟩)

/-! ## The DIS core, modelled from the spec

The session state machine, codec and transport live in the `emsndis`
Python module of this repository (the C++ wrapper only forwards to it);
that module is not under src/, so the definitions below are modelled from
the design spec. -/

/-- Modelled from the spec: section 3, the immutable federate identity
triple (Site ID, Application ID, Exercise ID), fixed at construction. -/
structure Identity where
  siteId : Nat
  applicationId : Nat
  exerciseId : Nat
deriving DecidableEq

/-- Modelled from the spec: section 3, the kinematic record of one
simulated entity.  Numeric fields are exact rationals here: the spec's
finiteness invariant (no NaN or infinity) holds for every `Rat`, and the
floating-point encoding tolerance of the round-trip property becomes
exactness. -/
structure EntityState where
  lat : Rat
  lon : Rat
  alt : Rat
  yaw : Rat
  pitch : Rat
  roll : Rat
  u : Rat
  v : Rat
  w : Rat
  yawRate : Rat
  pitchRate : Rat
  rollRate : Rat
  entityType : String
  marking : String
deriving DecidableEq

/-- Modelled from the spec: sections 4.1 and 8, the codec configuration
surface — whether an over-long marking may be truncated on encode. -/
structure CodecConfig where
  allowTruncation : Bool
deriving DecidableEq

/-- Modelled from the spec: section 7, `EncodingError` (bad or unsupported
field value, local, recoverable). -/
inductive EncodingError
  | unknownEntityType
  | markingTooLong
deriving DecidableEq

/-- Modelled from the spec: section 7, `NetworkError` with its three
cases. -/
inductive NetworkError
  | BindFailed
  | JoinFailed
  | SendFailed
deriving DecidableEq

/-- Modelled from the spec: section 4.1, decoding fails when header
fields are inconsistent, and an unknown entity-type code is not
decodable. -/
inductive DecodingError
  | headerMismatch
  | unknownTypeCode
deriving DecidableEq

/-- The wire format's maximum marking field width (the DIS Entity State
PDU marking is 11 characters). -/
def markingMaxLen : Nat := 11

/-- Modelled from the spec: section 3, the known categorical code table
for `entityType` (the sample scenario's vessel class is its known
entry). -/
def entityTypeTable : List (String × Nat) :=
  [("generic_ship_container_class_small", 1)]

/-- Look an `entityType` string up in the categorical code table. -/
def typeLookup (s : String) : Option Nat :=
  (entityTypeTable.find? (fun e => e.1 == s)).map (fun e => e.2)

/-- Inverse lookup, from wire code back to `entityType` string. -/
def codeLookup (c : Nat) : Option String :=
  (entityTypeTable.find? (fun e => e.2 == c)).map (fun e => e.1)

/-- Pad or cut a marking to the fixed wire width: characters become
`some c`, padding cells are `none` (the NUL fill of the wire format). -/
def padMarking (s : String) : List (Option Char) :=
  (s.data.take markingMaxLen).map some
    ++ List.replicate (markingMaxLen - s.length) none

/-- Recover the marking text from the fixed-width wire field. -/
def unpadMarking (l : List (Option Char)) : String :=
  String.mk (l.filterMap id)

/-- DIS protocol version carried in every PDU header. -/
def protocolVersionDis : Nat := 6

/-- PDU type code of an Entity State PDU. -/
def entityStatePduType : Nat := 1

/-- Declared byte length of the fixed-layout Entity State PDU. -/
def entityStatePduLength : Nat := 144

/-- Modelled from the spec: sections 3 and 6, the Entity State PDU —
header fields, the sender's identity, the kinematic fields in wire order
and the fixed-width marking.  The spec leaves the exact byte offsets
open (section 9), so the wire value is kept structured rather than
flattened to bytes. -/
structure EntityStatePdu where
  protocolVersion : Nat
  pduType : Nat
  pduLength : Nat
  site : Nat
  application : Nat
  exercise : Nat
  entityId : Nat
  lat : Rat
  lon : Rat
  alt : Rat
  yaw : Rat
  pitch : Rat
  roll : Rat
  u : Rat
  v : Rat
  w : Rat
  yawRate : Rat
  pitchRate : Rat
  rollRate : Rat
  entityTypeCode : Nat
  marking : List (Option Char)
  timestamp : Nat
deriving DecidableEq

/-- Build the Entity State PDU for a given identity, entity id, state
snapshot, resolved type code, (possibly already truncated) marking text
and timestamp. -/
def buildEntityStatePdu (id_ : Identity) (entityId : Nat) (state : EntityState)
    (code : Nat) (marking : String) (timestamp : Nat) : EntityStatePdu :=
  { protocolVersion := protocolVersionDis
    pduType := entityStatePduType
    pduLength := entityStatePduLength
    site := id_.siteId
    application := id_.applicationId
    exercise := id_.exerciseId
    entityId := entityId
    lat := state.lat
    lon := state.lon
    alt := state.alt
    yaw := state.yaw
    pitch := state.pitch
    roll := state.roll
    u := state.u
    v := state.v
    w := state.w
    yawRate := state.yawRate
    pitchRate := state.pitchRate
    rollRate := state.rollRate
    entityTypeCode := code
    marking := padMarking marking
    timestamp := timestamp }

/-- Modelled from the spec: section 4.1, `encodeEntityState(identity,
entityId, state, timestamp)` — fails with `EncodingError` if `entityType`
is unrecognized, truncates an over-long marking deterministically when
the configuration allows it, and fails with `EncodingError` when it does
not. -/
def encodeEntityState (cfg : CodecConfig) (id_ : Identity) (entityId : Nat)
    (state : EntityState) (timestamp : Nat) :
    Except EncodingError EntityStatePdu :=
  match typeLookup state.entityType with
  | none => Except.error EncodingError.unknownEntityType
  | some code =>
    if state.marking.length ≤ markingMaxLen then
      Except.ok (buildEntityStatePdu id_ entityId state code state.marking timestamp)
    else if cfg.allowTruncation then
      Except.ok (buildEntityStatePdu id_ entityId state code
        (state.marking.take markingMaxLen) timestamp)
    else
      Except.error EncodingError.markingTooLong

/-- Modelled from the spec: section 4.1, the codec's inverse — checks the
header type and length fields for consistency, resolves the type code and
recovers the identity, entity id, entity state and timestamp. -/
def decodeEntityState (p : EntityStatePdu) :
    Except DecodingError (Identity × Nat × EntityState × Nat) :=
  if p.pduType = entityStatePduType ∧ p.pduLength = entityStatePduLength then
    match codeLookup p.entityTypeCode with
    | none => Except.error DecodingError.unknownTypeCode
    | some ty =>
      Except.ok (⟨p.site, p.application, p.exercise⟩, p.entityId,
        ⟨p.lat, p.lon, p.alt, p.yaw, p.pitch, p.roll, p.u, p.v, p.w,
          p.yawRate, p.pitchRate, p.rollRate, ty, unpadMarking p.marking⟩,
        p.timestamp)
  else
    Except.error DecodingError.headerMismatch

/-- Modelled from the spec: section 4.3, the session states
`Unopened → Open → Closed`. -/
inductive SessionState
  | Unopened
  | Open
  | Closed
deriving DecidableEq

/-- Modelled from the spec: section 7, the typed results an operation can
return through its error channel. -/
inductive DisError
  | invalidState
  | encoding (e : EncodingError)
  | network (e : NetworkError)
deriving DecidableEq

/-- A PDU emitted on the wire: a Start/Resume or Stop/Freeze PDU carries
the identity and a timestamp; an Entity State PDU carries the full
encoded record. -/
inductive Pdu
  | start (id_ : Identity) (timestamp : Nat)
  | entityState (p : EntityStatePdu)
  | stop (id_ : Identity) (timestamp : Nat)
deriving DecidableEq

/-- The kind of a PDU, for trace-shape statements. -/
inductive PduKind
  | start
  | entityState
  | stop
deriving DecidableEq

/-- Kind of an emitted PDU. -/
def Pdu.kind : Pdu → PduKind
  | .start _ _ => PduKind.start
  | .entityState _ => PduKind.entityState
  | .stop _ _ => PduKind.stop

/-- Timestamp carried by an emitted PDU. -/
def Pdu.timestamp : Pdu → Nat
  | .start _ t => t
  | .entityState p => p.timestamp
  | .stop _ t => t

/-- Identity carried by an emitted PDU. -/
def Pdu.identityOf : Pdu → Identity
  | .start i _ => i
  | .entityState p => ⟨p.site, p.application, p.exercise⟩
  | .stop i _ => i

/-- Modelled from the spec: sections 3 and 4.3, a session owns one
Identity for its lifetime together with its lifecycle state and codec
configuration. -/
structure Session where
  identity : Identity
  state : SessionState
  cfg : CodecConfig
deriving DecidableEq

/-- A freshly constructed, not yet opened session holding the identity
supplied at construction. -/
def Session.new (id_ : Identity) (cfg : CodecConfig) : Session :=
  ⟨id_, SessionState.Unopened, cfg⟩

/-- One caller operation on a session.  The `bindOk` and `sendOk` flags
are the environment's transport outcomes for this call: whether the
bind/join of the multicast socket succeeds and whether the local datagram
send succeeds. -/
inductive Op
  | openSession (t : Nat) (bindOk sendOk : Bool)
  | tick (t : Nat) (entityId : Nat) (es : EntityState) (sendOk : Bool)
  | close (t : Nat) (sendOk : Bool)
deriving DecidableEq

/-- The transport outcome of the operation's (single) datagram send, as
supplied by the environment. -/
def Op.sendOk : Op → Bool
  | .openSession _ _ so => so
  | .tick _ _ _ so => so
  | .close _ so => so

/-- Modelled from the spec: sections 4.3 and 7, one step of the session
state machine.  It returns the typed result handed back to the caller,
the session after the step, and the list of PDU send attempts the step
made (at most one — the session never retries).
`openSession`: only valid from `Unopened`; a bind/join failure is fatal
and leaves the session `Unopened`; a send failure of the Start PDU is
surfaced but the session still reaches `Open`.
`tick`: only valid in `Open` (otherwise `InvalidStateError` and nothing
is sent); an encoding failure is returned and nothing is sent; a send
failure is returned and the session stays `Open`.
`close`: from `Open` it sends the Stop PDU best-effort and reaches
`Closed` (a send failure is surfaced); it is idempotent when already
`Closed`; calling it before any open is a caller protocol violation. -/
def step (s : Session) : Op → (Except DisError Unit × Session × List Pdu)
  | .openSession t bindOk sendOk =>
    match s.state with
    | SessionState.Unopened =>
      if bindOk then
        ((if sendOk then Except.ok () else Except.error (DisError.network NetworkError.SendFailed)),
          { s with state := SessionState.Open }, [Pdu.start s.identity t])
      else
        (Except.error (DisError.network NetworkError.BindFailed), s, [])
    | _ => (Except.error DisError.invalidState, s, [])
  | .tick t entityId es sendOk =>
    match s.state with
    | SessionState.Open =>
      match encodeEntityState s.cfg s.identity entityId es t with
      | Except.error e => (Except.error (DisError.encoding e), s, [])
      | Except.ok p =>
        ((if sendOk then Except.ok () else Except.error (DisError.network NetworkError.SendFailed)),
          s, [Pdu.entityState p])
    | _ => (Except.error DisError.invalidState, s, [])
  | .close t sendOk =>
    match s.state with
    | SessionState.Open =>
      ((if sendOk then Except.ok () else Except.error (DisError.network NetworkError.SendFailed)),
        { s with state := SessionState.Closed }, [Pdu.stop s.identity t])
    | SessionState.Closed => (Except.ok (), s, [])
    | SessionState.Unopened => (Except.error DisError.invalidState, s, [])

/-- Run a sequence of operations from a session, collecting every PDU
send attempt in order. -/
def run (s : Session) : List Op → Session × List Pdu
  | [] => (s, [])
  | op :: ops =>
    let r := step s op
    let rest := run r.2.1 ops
    (rest.1, r.2.2 ++ rest.2)

/-! ## The sample driver, from src/unnamed/part_004 -/

/-- From src/unnamed/part_004 lines 22-25 and 30-38: the entity state the
sample simulation loop reports on every tick. -/
def scenarioEntityState : EntityState :=
  { lat := 57.66
    lon := 12.44
    alt := 0
    yaw := 0.3
    pitch := 0
    roll := 0
    u := 2
    v := 0
    w := 0
    yawRate := 0
    pitchRate := 0
    rollRate := 0
    entityType := "generic_ship_container_class_small"
    marking := "Hi Reto" }

/-- From src/unnamed/part_004: open, then five ticks at one-second
intervals (the loop sends and then sleeps one second, so the ticks carry
times `t0 .. t0+4`), then close at `t0+5`.  All transport sends succeed. -/
def scenarioOps (t0 : Nat) : List Op :=
  Op.openSession t0 true true
    :: ((List.range 5).map fun i => Op.tick (t0 + i) 1 scenarioEntityState true)
    ++ [Op.close (t0 + 5) true]

/-- From src/unnamed/part_004 lines 13-16: the sample driver constructs
the session with siteId 1, applicationId 1, exerciseId 1. -/
def scenarioIdentity : Identity := ⟨1, 1, 1⟩

/-- The PDU trace the sample driver's run emits. -/
def scenarioTrace (t0 : Nat) : List Pdu :=
  (run (Session.new scenarioIdentity ⟨true⟩) (scenarioOps t0)).2

/-! ## The call frame of `send_state_pdu`, from part_002 / part_003 -/

/-- From src/unnamed/part_003 lines 24-27 and part_002 lines 34-41:
`EmsnDis::send_state_pdu` receives every entity-state field by value (13
floats and two `std::string`s are copied at the call site), so the callee
works on a snapshot; the caller's record is returned alongside the
callee's result to state the frame property. -/
def send_state_pdu_call (caller : EntityState) (s : Session) (t entityId : Nat)
    (sendOk : Bool) :
    EntityState × (Except DisError Unit × Session × List Pdu) :=
  (caller, step s (Op.tick t entityId caller sendOk))

/-! ## Concrete values used by the witness theorems -/

/-- A session whose lifecycle already reached `Closed`. -/
def sessionClosed0 : Session := ⟨⟨2, 1, 1⟩, SessionState.Closed, ⟨true⟩⟩

/-- A session in the `Open` state. -/
def sessionOpen0 : Session := ⟨⟨2, 1, 1⟩, SessionState.Open, ⟨true⟩⟩

/-- The sample entity state with a marking longer than the wire field. -/
def longMarkingState : EntityState :=
  { scenarioEntityState with marking := "a marking that is way too long" }

/-! ## Helper lemmas -/

theorem typeLookup_inv {s : String} {c : Nat} (h : typeLookup s = some c) :
    s = "generic_ship_container_class_small" ∧ c = 1 := by
  unfold typeLookup entityTypeTable at h
  simp [List.find?] at h
  split at h
  · rename_i hbeq
    simp at h hbeq
    exact ⟨hbeq.symm, h.symm⟩
  · simp at h

theorem unpad_pad (s : String) (h : s.length ≤ markingMaxLen) :
    unpadMarking (padMarking s) = s := by
  unfold unpadMarking padMarking
  have h1 : s.data.take markingMaxLen = s.data := List.take_of_length_le h
  rw [h1, List.filterMap_append]
  have h2 : (s.data.map some).filterMap id = s.data := by
    induction s.data with
    | nil => rfl
    | cons hd tl ih => simp [List.filterMap_cons, ih]
  have h3 : (List.replicate (markingMaxLen - s.length) (none : Option Char)).filterMap id
      = [] := by
    induction markingMaxLen - s.length with
    | zero => rfl
    | succ n ih => simp [List.replicate_succ, List.filterMap_cons, ih]
  rw [h2, h3, List.append_nil]

theorem encode_ok_identity {cfg : CodecConfig} {id_ : Identity} {eid : Nat}
    {state : EntityState} {t : Nat} {p : EntityStatePdu}
    (h : encodeEntityState cfg id_ eid state t = Except.ok p) :
    p.site = id_.siteId ∧ p.application = id_.applicationId ∧
    p.exercise = id_.exerciseId := by
  unfold encodeEntityState at h
  split at h
  · exact absurd h (by simp)
  · split at h
    · simp only [Except.ok.injEq] at h
      subst h
      exact ⟨rfl, rfl, rfl⟩
    · split at h
      · simp only [Except.ok.injEq] at h
        subst h
        exact ⟨rfl, rfl, rfl⟩
      · exact absurd h (by simp)

theorem step_identity (s : Session) (op : Op) :
    (step s op).2.1.identity = s.identity ∧
    ∀ p ∈ (step s op).2.2, p.identityOf = s.identity := by
  obtain ⟨sid, sst, scfg⟩ := s
  cases op with
  | openSession t bindOk sendOk =>
    cases sst <;> cases bindOk <;> simp_all [step, Pdu.identityOf]
  | tick t eid es sendOk =>
    cases sst with
    | Open =>
      cases henc : encodeEntityState scfg sid eid es t with
      | error e => simp [step, henc]
      | ok p =>
        simp [step, henc, Pdu.identityOf]
        obtain ⟨h1, h2, h3⟩ := encode_ok_identity henc
        simp [h1, h2, h3]
    | Unopened => simp [step]
    | Closed => simp [step]
  | close t sendOk =>
    cases sst <;> simp [step, Pdu.identityOf]

theorem run_identity (s : Session) (ops : List Op) :
    (run s ops).1.identity = s.identity ∧
    ∀ p ∈ (run s ops).2, p.identityOf = s.identity := by
  induction ops generalizing s with
  | nil => simp [run]
  | cons op ops ih =>
    obtain ⟨h1, h2⟩ := step_identity s op
    obtain ⟨ih1, ih2⟩ := ih (step s op).2.1
    refine ⟨?_, ?_⟩
    · show (run (step s op).2.1 ops).1.identity = _
      rw [ih1, h1]
    · intro p hp
      rcases List.mem_append.mp hp with hmem | hmem
      · exact h2 p hmem
      · rw [ih2 p hmem, h1]

/-! ## Claim theorems -/

/-- C1: calling `tick` (`send_state_pdu`) before any open or after close —
that is, in any state other than `Open` — always fails with
`InvalidStateError`, sends no PDU and leaves the session unchanged; and a
tick that does not fail with `InvalidStateError` can only have happened in
an `Open` session, so no Entity State PDU is ever sent outside an open
session. -/
theorem tick_requires_open_session (s : Session) (t eid : Nat) (es : EntityState)
    (sendOk : Bool) (h : s.state ≠ SessionState.Open) :
    (step s (Op.tick t eid es sendOk)).1 = Except.error DisError.invalidState ∧
    (step s (Op.tick t eid es sendOk)).2.2 = [] ∧
    (step s (Op.tick t eid es sendOk)).2.1 = s ∧
    (∀ s2 : Session,
      (step s2 (Op.tick t eid es sendOk)).1 ≠ Except.error DisError.invalidState →
      s2.state = SessionState.Open) := by
  refine ⟨?_, ?_, ?_, ?_⟩
  · obtain ⟨sid, sst, scfg⟩ := s
    cases sst <;> simp_all [step]
  · obtain ⟨sid, sst, scfg⟩ := s
    cases sst <;> simp_all [step]
  · obtain ⟨sid, sst, scfg⟩ := s
    cases sst <;> simp_all [step]
  · intro s2 h2
    obtain ⟨sid, sst, scfg⟩ := s2
    cases sst <;> simp_all [step]

theorem tick_requires_open_session_witness :
    sessionClosed0.state ≠ SessionState.Open ∧
    (step sessionClosed0 (Op.tick 0 1 scenarioEntityState true)).1 =
      Except.error DisError.invalidState :=
  ⟨by decide,
    (tick_requires_open_session sessionClosed0 0 1 scenarioEntityState true (by decide)).1⟩

/-- C2: the sample driver's scenario — one open, five ticks with the given
entity state at one-second intervals, one close — emits exactly one Start
PDU, then five Entity State PDUs, then one Stop PDU, in that order, and
the timestamps along the whole trace are monotonically non-decreasing. -/
theorem scenario_emits_one_start_five_states_one_stop (t0 : Nat) :
    (scenarioTrace t0).map Pdu.kind =
      PduKind.start :: (List.replicate 5 PduKind.entityState ++ [PduKind.stop]) ∧
    List.Chain' (· ≤ ·) ((scenarioTrace t0).map Pdu.timestamp) := by
  constructor
  · rfl
  · have h : (scenarioTrace t0).map Pdu.timestamp =
        [t0, t0, t0 + 1, t0 + 2, t0 + 3, t0 + 4, t0 + 5] := rfl
    rw [h]
    simp [List.chain'_cons, List.chain'_singleton]

/-- C3: `close` (`send_stop_pdu`) is idempotent — after closing an open
session, a second close returns no error and sends no second Stop PDU,
and more generally any close of an already `Closed` session is a no-op
returning success. -/
theorem close_idempotent (s : Session) (t1 t2 : Nat) (ok1 ok2 : Bool)
    (h : s.state = SessionState.Open) :
    (step (step s (Op.close t1 ok1)).2.1 (Op.close t2 ok2)).1 = Except.ok () ∧
    (step (step s (Op.close t1 ok1)).2.1 (Op.close t2 ok2)).2.2 = [] ∧
    (∀ s2 : Session, s2.state = SessionState.Closed →
      ∀ t ok, step s2 (Op.close t ok) = (Except.ok (), s2, [])) := by
  obtain ⟨sid, sst, scfg⟩ := s
  subst h
  refine ⟨rfl, rfl, ?_⟩
  intro s2 h2 t ok
  obtain ⟨sid2, sst2, scfg2⟩ := s2
  subst h2
  rfl

theorem close_idempotent_witness :
    sessionOpen0.state = SessionState.Open ∧
    (step (step sessionOpen0 (Op.close 3 true)).2.1 (Op.close 4 true)).1 = Except.ok () ∧
    (step (step sessionOpen0 (Op.close 3 true)).2.1 (Op.close 4 true)).2.2 = [] :=
  ⟨rfl, (close_idempotent sessionOpen0 3 4 true true rfl).1,
    (close_idempotent sessionOpen0 3 4 true true rfl).2.1⟩

/-- C4: over a session's entire lifetime, every PDU it emits carries the
Identity (siteId, applicationId, exerciseId) supplied at construction,
and no operation ever changes the session's Identity. -/
theorem pdu_identity_immutable (id_ : Identity) (cfg : CodecConfig) (ops : List Op)
    (p : Pdu) (hp : p ∈ (run (Session.new id_ cfg) ops).2) :
    p.identityOf = id_ ∧ (run (Session.new id_ cfg) ops).1.identity = id_ := by
  obtain ⟨h1, h2⟩ := run_identity (Session.new id_ cfg) ops
  exact ⟨h2 p hp, h1⟩

theorem pdu_identity_immutable_witness :
    Pdu.start ⟨2, 1, 1⟩ 0 ∈
      (run (Session.new ⟨2, 1, 1⟩ ⟨true⟩) [Op.openSession 0 true true]).2 ∧
    (Pdu.start ⟨2, 1, 1⟩ 0).identityOf = (⟨2, 1, 1⟩ : Identity) :=
  ⟨by decide,
    (pdu_identity_immutable ⟨2, 1, 1⟩ ⟨true⟩ [Op.openSession 0 true true]
      (Pdu.start ⟨2, 1, 1⟩ 0) (by decide)).1⟩

/-- C5: for every valid entity state — known `entityType` and a marking
that fits the wire field (all numeric fields of the exact model are
finite by construction) — `encodeEntityState` succeeds and decoding the
encoded PDU succeeds and reproduces every field of the state exactly,
together with the identity, entity id and timestamp. -/
theorem entity_state_roundtrip (cfg : CodecConfig) (id_ : Identity) (eid : Nat)
    (state : EntityState) (t : Nat) (c : Nat)
    (hty : typeLookup state.entityType = some c)
    (hm : state.marking.length ≤ markingMaxLen) :
    encodeEntityState cfg id_ eid state t =
      Except.ok (buildEntityStatePdu id_ eid state c state.marking t) ∧
    decodeEntityState (buildEntityStatePdu id_ eid state c state.marking t) =
      Except.ok (id_, eid, state, t) := by
  obtain ⟨hs, hc⟩ := typeLookup_inv hty
  constructor
  · unfold encodeEntityState
    rw [hty]
    simp [hm]
  · subst hc
    unfold decodeEntityState
    have hcode : codeLookup 1 = some "generic_ship_container_class_small" := rfl
    simp [buildEntityStatePdu, hcode]
    rw [unpad_pad state.marking hm, ← hs]

theorem entity_state_roundtrip_witness :
    typeLookup scenarioEntityState.entityType = some 1 ∧
    scenarioEntityState.marking.length ≤ markingMaxLen ∧
    decodeEntityState
        (buildEntityStatePdu ⟨2, 1, 1⟩ 1 scenarioEntityState 1
          scenarioEntityState.marking 7) =
      Except.ok (⟨2, 1, 1⟩, 1, scenarioEntityState, 7) :=
  ⟨by decide, by decide,
    (entity_state_roundtrip ⟨true⟩ ⟨2, 1, 1⟩ 1 scenarioEntityState 7 1
      (by decide) (by decide)).2⟩

/-- C6: encoding an Entity State PDU whose marking exceeds the wire
field's maximum width deterministically truncates the marking to that
width and succeeds when truncation is allowed by configuration; when
truncation is disabled the call fails with `EncodingError`; and an
unrecognized `entityType` likewise fails with `EncodingError`. -/
theorem marking_truncation_policy (cfg : CodecConfig) (id_ : Identity) (eid : Nat)
    (state : EntityState) (t : Nat) (c : Nat)
    (hty : typeLookup state.entityType = some c)
    (hm : markingMaxLen < state.marking.length) :
    (cfg.allowTruncation = true →
      encodeEntityState cfg id_ eid state t =
        Except.ok (buildEntityStatePdu id_ eid state c
          (state.marking.take markingMaxLen) t)) ∧
    (cfg.allowTruncation = false →
      encodeEntityState cfg id_ eid state t =
        Except.error EncodingError.markingTooLong) ∧
    (∀ state2 : EntityState, typeLookup state2.entityType = none →
      encodeEntityState cfg id_ eid state2 t =
        Except.error EncodingError.unknownEntityType) := by
  have hnot : ¬ (state.marking.length ≤ markingMaxLen) := by omega
  refine ⟨?_, ?_, ?_⟩
  · intro htr
    unfold encodeEntityState
    rw [hty]
    simp [hnot, htr]
  · intro htr
    unfold encodeEntityState
    rw [hty]
    simp [hnot, htr]
  · intro state2 h2
    unfold encodeEntityState
    rw [h2]

theorem marking_truncation_policy_witness :
    typeLookup longMarkingState.entityType = some 1 ∧
    markingMaxLen < longMarkingState.marking.length ∧
    encodeEntityState ⟨false⟩ ⟨2, 1, 1⟩ 1 longMarkingState 0 =
      Except.error EncodingError.markingTooLong :=
  ⟨by decide, by decide,
    (marking_truncation_policy ⟨false⟩ ⟨2, 1, 1⟩ 1 longMarkingState 0 1
      (by decide) (by decide)).2.1 rfl⟩

/-- C7: every operation makes at most one send attempt (the session never
retries); a failed transport send of any attempted PDU is returned to the
caller as `NetworkError SendFailed`; a bind/join failure during open is
returned as `NetworkError BindFailed`; and an encoding failure during
tick is returned as the corresponding `EncodingError` — no failure is
silently swallowed. -/
theorem errors_propagate_no_retry (s : Session) (op : Op) :
    ((step s op).2.2).length ≤ 1 ∧
    (op.sendOk = false → (step s op).2.2 ≠ [] →
      (step s op).1 = Except.error (DisError.network NetworkError.SendFailed)) ∧
    (∀ t bindOk sendOk, op = Op.openSession t bindOk sendOk →
      s.state = SessionState.Unopened → bindOk = false →
      (step s op).1 = Except.error (DisError.network NetworkError.BindFailed)) ∧
    (∀ t eid es sendOk e, op = Op.tick t eid es sendOk →
      s.state = SessionState.Open →
      encodeEntityState s.cfg s.identity eid es t = Except.error e →
      (step s op).1 = Except.error (DisError.encoding e)) := by
  obtain ⟨sid, sst, scfg⟩ := s
  refine ⟨?_, ?_, ?_, ?_⟩
  · cases op with
    | openSession t bindOk sendOk =>
      cases sst <;> cases bindOk <;> simp [step]
    | tick t eid es sendOk =>
      cases sst with
      | Open =>
        cases henc : encodeEntityState scfg sid eid es t <;> simp [step, henc]
      | Unopened => simp [step]
      | Closed => simp [step]
    | close t sendOk =>
      cases sst <;> simp [step]
  · intro hso hne
    cases op with
    | openSession t bindOk sendOk =>
      simp [Op.sendOk] at hso
      subst hso
      cases sst <;> cases bindOk <;> simp_all [step]
    | tick t eid es sendOk =>
      simp [Op.sendOk] at hso
      subst hso
      cases sst with
      | Open =>
        cases henc : encodeEntityState scfg sid eid es t <;> simp_all [step]
      | Unopened => simp_all [step]
      | Closed => simp_all [step]
    | close t sendOk =>
      simp [Op.sendOk] at hso
      subst hso
      cases sst <;> simp_all [step]
  · intro t bindOk sendOk heq hst hb
    subst heq
    subst hb
    simp at hst
    subst hst
    simp [step]
  · intro t eid es sendOk e heq hst henc
    subst heq
    simp at hst
    subst hst
    simp at henc
    simp [step, henc]

theorem errors_propagate_no_retry_witness :
    (Op.tick 0 1 scenarioEntityState false).sendOk = false ∧
    (step sessionOpen0 (Op.tick 0 1 scenarioEntityState false)).2.2 ≠ [] ∧
    (step sessionOpen0 (Op.tick 0 1 scenarioEntityState false)).1 =
      Except.error (DisError.network NetworkError.SendFailed) :=
  ⟨rfl, by decide,
    (errors_propagate_no_retry sessionOpen0 (Op.tick 0 1 scenarioEntityState false)).2.1
      rfl (by decide)⟩

/-- C8: `send_state_pdu` receives the entity state by value: the caller's
record is unchanged by the call, and the callee's entire behaviour —
result, session and emitted PDUs — is a function of the snapshot value it
received, not of the caller's storage. -/
theorem send_state_pdu_by_value_frame (caller : EntityState) (s : Session)
    (t eid : Nat) (sendOk : Bool) :
    (send_state_pdu_call caller s t eid sendOk).1 = caller ∧
    (send_state_pdu_call caller s t eid sendOk).2 =
      step s (Op.tick t eid caller sendOk) :=
  ⟨rfl, rfl⟩

/-- C9 counterexample: the claim that one process can hold two sessions at
the same time is false — after a first `EmsnDis` is constructed (its
interpreter guard alive), constructing a second one with a distinct
Identity fails, because the per-instance `scoped_interpreter` guard
cannot start a second interpreter. -/
theorem two_sessions_concurrently_impossible :
    constructEmsnDisPy ⟨false⟩ 1 1 1 = Except.ok (⟨true⟩, ⟨1, 1, 1⟩) ∧
    constructEmsnDisPy ⟨true⟩ 2 1 1 =
      Except.error PyConstructError.interpreterAlreadyRunning :=
  ⟨rfl, rfl⟩

/-- C9 (amended): a process can hold at most one `EmsnDis` session at a
time — whenever the interpreter of an existing instance is running,
constructing another instance fails with the interpreter-already-running
error, while construction in a process with no live instance succeeds. -/
theorem second_session_construction_fails (proc : PyInterpreterState) (a b c : Int)
    (h : proc.running = true) :
    constructEmsnDisPy proc a b c =
      Except.error PyConstructError.interpreterAlreadyRunning ∧
    (∀ a0 b0 c0 : Int, constructEmsnDisPy ⟨false⟩ a0 b0 c0 =
      Except.ok (⟨true⟩, ⟨a0, b0, c0⟩)) := by
  constructor
  · unfold constructEmsnDisPy
    simp [h]
  · intro a0 b0 c0
    rfl

theorem second_session_construction_fails_witness :
    (PyInterpreterState.mk true).running = true ∧
    constructEmsnDisPy ⟨true⟩ 5 6 7 =
      Except.error PyConstructError.interpreterAlreadyRunning :=
  ⟨rfl, (second_session_construction_fails ⟨true⟩ 5 6 7 rfl).1⟩

/-- C10: in the stub implementation each send method unconditionally
succeeds and writes exactly its fixed line to standard output, so the
output of any call sequence is fully determined by the sequence alone —
independent of the constructor arguments (siteId, applicationId,
exerciseId), of any prior calls and of any entity state (the stub
`send_state_pdu` takes no state parameters at all). -/
theorem stub_output_independent (a b c a2 b2 c2 : Int) (cs : List StubCall) :
    stubRun (EmsnDis.construct a b c) cs = cs.map stubLine ∧
    stubRun (EmsnDis.construct a b c) cs = stubRun (EmsnDis.construct a2 b2 c2) cs := by
  have hstep : ∀ (d : EmsnDis) (call : StubCall), stubStep d call = stubLine call := by
    intro d call
    cases call <;> rfl
  have hrun : ∀ (d : EmsnDis), stubRun d cs = cs.map stubLine := by
    intro d
    unfold stubRun
    induction cs with
    | nil => rfl
    | cons hd tl ih => simp [hstep, ih]
  exact ⟨hrun _, (hrun _).trans (hrun _).symm⟩
